import Mathlib

/-!
Verification of the crocodile/arl core against its specification.

The Python source under `crocodile/simulate.py`, `arl/skymodel_operations.py`
and `arl/skymodel_solvers.py` is shallowly embedded below.  numpy float
arithmetic is idealised as exact real arithmetic (`ℝ`); the one place where
IEEE semantics matter — `numpy.sqrt` of a negative argument, which silently
yields `NaN` instead of raising — is modelled explicitly with `Option`
(`none` = the entry is `NaN`).  Python exceptions (`NameError` on an unbound
local, `IndexError` on an empty list) are modelled with `Except`.
-/

open Real

/-- A numpy row of shape `(3,)`: one `(x, y, z)` / `(u, v, w)` coordinate. -/
abbrev V3 : Type := ℝ × ℝ × ℝ

/-- Componentwise subtraction of two numpy rows, `a - b`. -/
def v3sub (a b : V3) : V3 := (a.1 - b.1, a.2.1 - b.2.1, a.2.2 - b.2.2)

/-- Embedding of `simulate.xyz_at_latitude(local_xyz, lat)`:
`lat2 = pi/2 - lat; y2 = -z*sin(lat2) + y*cos(lat2); z2 = z*cos(lat2) + y*sin(lat2)`,
applied rowwise to the `N×3` array. -/
noncomputable def xyz_at_latitude (local_xyz : List V3) (lat : ℝ) : List V3 :=
  local_xyz.map fun q =>
    (q.1,
     -q.2.2 * Real.sin (Real.pi / 2 - lat) + q.2.1 * Real.cos (Real.pi / 2 - lat),
     q.2.2 * Real.cos (Real.pi / 2 - lat) + q.2.1 * Real.sin (Real.pi / 2 - lat))

/-- The rotation about the X axis by angle `θ`, in the exact formula shape used
by `xyz_at_latitude` (so that `xyz_at_latitude xyz lat = rotateX (π/2 - lat) xyz`);
the inverse rotation of the round-trip claim is `rotateX` at the negated angle. -/
noncomputable def rotateX (θ : ℝ) (xyz : List V3) : List V3 :=
  xyz.map fun q =>
    (q.1, -q.2.2 * Real.sin θ + q.2.1 * Real.cos θ,
     q.2.2 * Real.cos θ + q.2.1 * Real.sin θ)

/-- Embedding of `simulate.xyz_to_uvw(ants_xyz, ha, dec)`:
`u = x*cos(ha) - y*sin(ha); v0 = x*sin(ha) + y*cos(ha);
v = z*cos(dec) + v0*sin(dec); w = z*sin(dec) - v0*cos(dec)`, rowwise. -/
noncomputable def xyz_to_uvw (ants_xyz : List V3) (ha dec : ℝ) : List V3 :=
  ants_xyz.map fun q =>
    (q.1 * Real.cos ha - q.2.1 * Real.sin ha,
     q.2.2 * Real.cos dec + (q.1 * Real.sin ha + q.2.1 * Real.cos ha) * Real.sin dec,
     q.2.2 * Real.sin dec - (q.1 * Real.sin ha + q.2.1 * Real.cos ha) * Real.cos dec)

/-- Embedding of `simulate.baselines(ants_uvw)`: the nested loop
`for i in range(N): for j in range(i+1, N): res.append(ants_uvw[j] - ants_uvw[i])`
(`range(i+1, N)` is `List.range' (i+1) (N - (i+1))`). -/
noncomputable def baselines (ants_uvw : List V3) : List V3 :=
  ((List.range ants_uvw.length).map fun i =>
    (List.range' (i + 1) (ants_uvw.length - (i + 1))).map fun j =>
      v3sub (ants_uvw.getD j (0, 0, 0)) (ants_uvw.getD i (0, 0, 0))).flatten

/-- The index pairs `(i, j)`, `i < j < n`, in the enumeration order of the
`baselines` nested loop. -/
def lexPairs (n : ℕ) : List (ℕ × ℕ) :=
  ((List.range n).map fun i =>
    (List.range' (i + 1) (n - (i + 1))).map fun j => (i, j)).flatten

/-- Strict lexicographic order on index pairs. -/
def lexLt (p q : ℕ × ℕ) : Prop := p.1 < q.1 ∨ (p.1 = q.1 ∧ p.2 < q.2)

lemma lexPairs_length (n : ℕ) : (lexPairs n).length = n * (n - 1) / 2 := by
  have h1 : (lexPairs n).length = ∑ i ∈ Finset.range n, (n - (i + 1)) := by
    rw [lexPairs, List.length_flatten, List.map_map]
    have he : (List.length ∘ fun i =>
        List.map (fun j => (i, j)) (List.range' (i + 1) (n - (i + 1)))) =
        fun i => n - (i + 1) := by
      funext i
      simp [List.length_range']
    rw [he]
    rfl
  have h2 : ∑ i ∈ Finset.range n, (n - (i + 1)) = ∑ i ∈ Finset.range n, i := by
    have := Finset.sum_range_reflect (fun i => i) n
    calc ∑ i ∈ Finset.range n, (n - (i + 1))
        = ∑ i ∈ Finset.range n, (n - 1 - i) := by
          apply Finset.sum_congr rfl
          intro i _
          omega
      _ = ∑ i ∈ Finset.range n, i := this
  rw [h1, h2, Finset.sum_range_id]

lemma mem_lexPairs (n : ℕ) (p : ℕ × ℕ) :
    p ∈ lexPairs n ↔ p.1 < p.2 ∧ p.2 < n := by
  simp only [lexPairs, List.mem_flatten, List.mem_map, List.mem_range]
  constructor
  · rintro ⟨l, ⟨i, hi, rfl⟩, hp⟩
    rcases List.mem_map.mp hp with ⟨j, hj, rfl⟩
    rcases List.mem_range'_1.mp hj with ⟨hj1, hj2⟩
    exact ⟨by omega, by omega⟩
  · rintro ⟨h1, h2⟩
    refine ⟨(List.range' (p.1 + 1) (n - (p.1 + 1))).map fun j => (p.1, j),
      ⟨p.1, by omega, rfl⟩, ?_⟩
    refine List.mem_map.mpr ⟨p.2, List.mem_range'_1.mpr ⟨by omega, by omega⟩, rfl⟩

lemma lexPairs_pairwise (n : ℕ) : List.Pairwise lexLt (lexPairs n) := by
  unfold lexPairs
  rw [List.pairwise_flatten]
  constructor
  · rintro l hl
    rcases List.mem_map.mp hl with ⟨i, _, rfl⟩
    rw [List.pairwise_map]
    refine List.Pairwise.imp ?_ (List.pairwise_lt_range' (i + 1) (n - (i + 1)))
    intro a b hab
    exact Or.inr ⟨rfl, hab⟩
  · rw [List.pairwise_map]
    refine List.Pairwise.imp ?_ (List.pairwise_lt_range n)
    intro i₁ i₂ h12
    intro x hx y hy
    rcases List.mem_map.mp hx with ⟨a, _, rfl⟩
    rcases List.mem_map.mp hy with ⟨b, _, rfl⟩
    exact Or.inl h12

lemma baselines_eq_map (ants : List V3) :
    baselines ants = (lexPairs ants.length).map fun p =>
      v3sub (ants.getD p.2 (0, 0, 0)) (ants.getD p.1 (0, 0, 0)) := by
  unfold baselines lexPairs
  rw [List.map_flatten, List.map_map]
  congr 1
  refine List.map_congr_left fun i _ => ?_
  simp [List.map_map, Function.comp]

/-- C6: `xyz_to_uvw` at hour angle 0 and declination π/2 is the identity. -/
theorem xyz_to_uvw_pole (ants : List V3) : xyz_to_uvw ants 0 (Real.pi / 2) = ants := by
  unfold xyz_to_uvw
  have : (fun q : V3 =>
      (q.1 * Real.cos 0 - q.2.1 * Real.sin 0,
       q.2.2 * Real.cos (Real.pi / 2) +
         (q.1 * Real.sin 0 + q.2.1 * Real.cos 0) * Real.sin (Real.pi / 2),
       q.2.2 * Real.sin (Real.pi / 2) -
         (q.1 * Real.sin 0 + q.2.1 * Real.cos 0) * Real.cos (Real.pi / 2))) = id := by
    funext q
    simp [Real.cos_pi_div_two, Real.sin_pi_div_two]
  rw [this, List.map_id]

/-- C7: rotating local XYZ to celestial XYZ with `xyz_at_latitude` and then
applying the X-axis rotation by the negated latitude offset `-(π/2 - lat)`
reconstructs the original coordinates exactly (over exact real arithmetic). -/
theorem xyz_at_latitude_roundtrip (xyz : List V3) (lat : ℝ) :
    rotateX (-(Real.pi / 2 - lat)) (xyz_at_latitude xyz lat) = xyz := by
  unfold rotateX xyz_at_latitude
  rw [List.map_map]
  have : ∀ q : V3, ((fun q : V3 =>
      (q.1, -q.2.2 * Real.sin (-(Real.pi / 2 - lat)) + q.2.1 * Real.cos (-(Real.pi / 2 - lat)),
       q.2.2 * Real.cos (-(Real.pi / 2 - lat)) + q.2.1 * Real.sin (-(Real.pi / 2 - lat)))) ∘
      (fun q : V3 =>
      (q.1,
       -q.2.2 * Real.sin (Real.pi / 2 - lat) + q.2.1 * Real.cos (Real.pi / 2 - lat),
       q.2.2 * Real.cos (Real.pi / 2 - lat) + q.2.1 * Real.sin (Real.pi / 2 - lat)))) q = q := by
    intro q
    obtain ⟨a, b, c⟩ := q
    simp only [Function.comp_apply, Real.sin_neg, Real.cos_neg]
    refine Prod.ext rfl (Prod.ext ?_ ?_)
    · show -(c * Real.cos (Real.pi / 2 - lat) + b * Real.sin (Real.pi / 2 - lat)) *
        -Real.sin (Real.pi / 2 - lat) +
        (-c * Real.sin (Real.pi / 2 - lat) + b * Real.cos (Real.pi / 2 - lat)) *
        Real.cos (Real.pi / 2 - lat) = b
      linear_combination b * Real.sin_sq_add_cos_sq (Real.pi / 2 - lat)
    · show (c * Real.cos (Real.pi / 2 - lat) + b * Real.sin (Real.pi / 2 - lat)) *
        Real.cos (Real.pi / 2 - lat) +
        (-c * Real.sin (Real.pi / 2 - lat) + b * Real.cos (Real.pi / 2 - lat)) *
        -Real.sin (Real.pi / 2 - lat) = c
      linear_combination c * Real.sin_sq_add_cos_sq (Real.pi / 2 - lat)
  calc (xyz.map _) = xyz.map id := List.map_congr_left fun q _ => this q
    _ = xyz := List.map_id xyz

/-- C5: `baselines` returns exactly `N(N-1)/2` vectors; it is the enumeration,
in lexicographic order over the index pairs `(i, j)` with `i < j < N`, of the
differences `uvw[j] - uvw[i]`. -/
theorem baselines_spec (ants : List V3) :
    (baselines ants).length = ants.length * (ants.length - 1) / 2 ∧
    baselines ants = (lexPairs ants.length).map (fun p =>
      v3sub (ants.getD p.2 (0, 0, 0)) (ants.getD p.1 (0, 0, 0))) ∧
    List.Pairwise lexLt (lexPairs ants.length) ∧
    ∀ p : ℕ × ℕ, p ∈ lexPairs ants.length ↔ p.1 < p.2 ∧ p.2 < ants.length := by
  refine ⟨?_, baselines_eq_map ants, lexPairs_pairwise ants.length,
    fun p => mem_lexPairs ants.length p⟩
  rw [baselines_eq_map ants, List.length_map, lexPairs_length]

/-- Embedding of the third component of `s` in `simulate.simulate_point`:
`numpy.sqrt(1 - l**2 - m**2) - 1.0`.  `numpy.sqrt` of a negative argument does
not raise: it silently returns `NaN` (modelled as `none`), which then
contaminates the whole entry. -/
noncomputable def sqrtTermMinusOne (l m : ℝ) : Option ℝ :=
  if 1 - l ^ 2 - m ^ 2 < 0 then none else some (Real.sqrt (1 - l ^ 2 - m ^ 2) - 1)

/-- Embedding of `simulate.simulate_point(dist_uvw, l, m)`:
`s = [l, m, sqrt(1 - l**2 - m**2) - 1.0]` and, for each baseline row `b`,
`exp(-2j * pi * dot(b, s))`.  A `none` entry is a `NaN` visibility (IEEE `NaN`
propagates through the dot product and the exponential of every row). -/
noncomputable def simulate_point (dist_uvw : List V3) (l m : ℝ) : List (Option ℂ) :=
  match sqrtTermMinusOne l m with
  | none => dist_uvw.map fun _ => none
  | some t => dist_uvw.map fun b =>
      some (Complex.exp ((-2) * Complex.I * (Real.pi : ℂ) *
        ((b.1 * l + b.2.1 * m + b.2.2 * t : ℝ) : ℂ)))

/-- C3 counterexample: at `(l, m) = (0.9, 0.9)` (so `l² + m² = 1.62 > 1`),
`simulate_point` does not raise any error: it returns normally, one `NaN`
visibility (`none`) per baseline, for the singleton baseline set `[(1,0,0)]`. -/
theorem simulate_point_out_of_disc_nan :
    simulate_point [((1 : ℝ), (0 : ℝ), (0 : ℝ))] (9 / 10) (9 / 10) = [none] := by
  have h : (1 : ℝ) - (9 / 10 : ℝ) ^ 2 - (9 / 10 : ℝ) ^ 2 < 0 := by norm_num
  rw [simulate_point, sqrtTermMinusOne, if_pos h]
  rfl

/-- C3 amended: for `l² + m² > 1`, `simulate_point` performs no domain check
and raises nothing; `numpy.sqrt` of the negative argument silently produces
`NaN`, so every returned visibility is a `NaN` entry (`none`). -/
theorem simulate_point_out_of_disc (uvw : List V3) (l m : ℝ) (h : 1 < l ^ 2 + m ^ 2) :
    simulate_point uvw l m = uvw.map fun _ => none := by
  have h' : 1 - l ^ 2 - m ^ 2 < 0 := by linarith
  rw [simulate_point, sqrtTermMinusOne, if_pos h']

/-- Witness for `simulate_point_out_of_disc` at `(l, m) = (0.9, 0.9)` on the
baseline set `[(0,0,1)]`. -/
theorem simulate_point_out_of_disc_witness :
    (1 : ℝ) < (9 / 10 : ℝ) ^ 2 + (9 / 10 : ℝ) ^ 2 ∧
    simulate_point [((0 : ℝ), (0 : ℝ), (1 : ℝ))] (9 / 10) (9 / 10) =
      [((0 : ℝ), (0 : ℝ), (1 : ℝ))].map fun _ => none :=
  ⟨by norm_num, simulate_point_out_of_disc [((0 : ℝ), (0 : ℝ), (1 : ℝ))] (9 / 10) (9 / 10)
    (by norm_num)⟩

/-- C4: for `l² + m² ≤ 1`, `simulate_point` returns, for each baseline `b`,
the complex number `exp(-2πi · (b · s))` with `s = (l, m, sqrt(1-l²-m²) - 1)`;
and at `l = m = 0` every returned visibility equals `1`. -/
theorem simulate_point_in_disc (uvw : List V3) (l m : ℝ) (h : l ^ 2 + m ^ 2 ≤ 1) :
    simulate_point uvw l m = uvw.map (fun b =>
      some (Complex.exp ((-2) * Complex.I * (Real.pi : ℂ) *
        ((b.1 * l + b.2.1 * m + b.2.2 * (Real.sqrt (1 - l ^ 2 - m ^ 2) - 1) : ℝ) : ℂ)))) ∧
    ∀ c ∈ simulate_point uvw 0 0, c = some 1 := by
  constructor
  · have h' : ¬(1 - l ^ 2 - m ^ 2 < 0) := by push_neg; linarith
    rw [simulate_point, sqrtTermMinusOne, if_neg h']
  · intro c hc
    have h0 : ¬((1 : ℝ) - 0 ^ 2 - 0 ^ 2 < 0) := by norm_num
    rw [simulate_point, sqrtTermMinusOne, if_neg h0] at hc
    rcases List.mem_map.mp hc with ⟨b, _, rfl⟩
    have hz : (b.1 * 0 + b.2.1 * 0 + b.2.2 * (Real.sqrt (1 - 0 ^ 2 - 0 ^ 2) - 1) : ℝ) = 0 := by
      simp [Real.sqrt_one]
    rw [hz]
    norm_num

/-- Witness for `simulate_point_in_disc` at `l = m = 0` on the baseline set
`[(1,2,3)]`. -/
theorem simulate_point_in_disc_witness :
    ((0 : ℝ) ^ 2 + (0 : ℝ) ^ 2 ≤ 1) ∧
    (simulate_point [((1 : ℝ), (2 : ℝ), (3 : ℝ))] 0 0 = [((1 : ℝ), (2 : ℝ), (3 : ℝ))].map (fun b =>
      some (Complex.exp ((-2) * Complex.I * (Real.pi : ℂ) *
        ((b.1 * 0 + b.2.1 * 0 + b.2.2 * (Real.sqrt (1 - 0 ^ 2 - 0 ^ 2) - 1) : ℝ) : ℂ)))) ∧
    ∀ c ∈ simulate_point [((1 : ℝ), (2 : ℝ), (3 : ℝ))] 0 0, c = some 1) :=
  ⟨by norm_num, simulate_point_in_disc [((1 : ℝ), (2 : ℝ), (3 : ℝ))] 0 0 (by norm_num)⟩

/-- A Python list element: either a payload object or a nested Python list
(Python lists are heterogeneous; the buggy `add_skymodels` stores whole lists
as elements). -/
inductive PyObj (α : Type) where
  | atom (a : α)
  | list (l : List (PyObj α))

/-- Modelled from the spec: the `SkyModel` class of `arl/data_models.py` (not
under `src/`) "owns a sequence of Images and a sequence of SkyComponents". -/
structure SkyModel (Img Comp : Type) where
  images : List (PyObj Img)
  components : List (PyObj Comp)

/-- Modelled from the spec: the `SkyComponent` class of `arl/data_models.py`
(not under `src/`), a record of direction, flux (leading axis = frequency
channel), frequency, shape, shape params and name. -/
structure SkyComponent (Dir : Type) where
  direction : Dir
  frequency : List ℝ
  name : String
  flux : List (List ℝ)
  shape : String
  params : Option (List (String × ℝ))

/-- Embedding of `skymodel_operations.create_skycomponent`: field-by-field
assignment (`sc.name` is assigned twice in the source, a no-op), with no
validation of any kind. -/
def create_skycomponent {Dir : Type} (direction : Dir) (flux : List (List ℝ))
    (frequency : List ℝ) (shape : String) (param : Option (List (String × ℝ)))
    (name : String) : SkyComponent Dir :=
  { direction := direction, frequency := frequency, name := name,
    flux := flux, shape := shape, params := param }

/-- Embedding of `skymodel_operations.add_skymodels`:
`fsm.images = [sm1.images, sm2.images]; fsm.components = [sm1.components, sm2.components]`
— each field is a two-element Python list whose elements are the operands'
whole lists (not their concatenation). -/
def add_skymodels {Img Comp : Type} (sm1 sm2 : SkyModel Img Comp) : SkyModel Img Comp :=
  { images := [PyObj.list sm1.images, PyObj.list sm2.images],
    components := [PyObj.list sm1.components, PyObj.list sm2.components] }

/-- Embedding of `skymodel_operations.add_component_to_skymodel`:
`sm.components.append(comp); return sm`.  The first component of the result is
the state of the (mutated) argument after the call, the second is the returned
object; in Python they are the same object. -/
def add_component_to_skymodel {Img Comp : Type} (sm : SkyModel Img Comp) (comp : Comp) :
    SkyModel Img Comp × SkyModel Img Comp :=
  ({ sm with components := sm.components ++ [PyObj.atom comp] },
   { sm with components := sm.components ++ [PyObj.atom comp] })

/-- Embedding of `skymodel_operations.add_image_to_skymodel`:
`sm.images.append(im); return sm`, with the same (state, returned) reading as
`add_component_to_skymodel`. -/
def add_image_to_skymodel {Img Comp : Type} (sm : SkyModel Img Comp) (im : Img) :
    SkyModel Img Comp × SkyModel Img Comp :=
  ({ sm with images := sm.images ++ [PyObj.atom im] },
   { sm with images := sm.images ++ [PyObj.atom im] })

/-- C8 (evaluation at the failing input): combining a model with two
components and no image with a model with one image and no component yields
`components = [list [c₁, c₂], list []]` and `images = [list [], list [im]]` —
two nested-list entries on each side, not the concatenations the claim
describes (in particular the image count is 2, not 1, and no element of either
list is a component or an image). -/
theorem add_skymodels_nests :
    (@add_skymodels ℕ ℕ
        { images := [], components := [PyObj.atom 1, PyObj.atom 2] }
        { images := [PyObj.atom 7], components := [] }).components =
      [PyObj.list [PyObj.atom 1, PyObj.atom 2], PyObj.list []] ∧
    (@add_skymodels ℕ ℕ
        { images := [], components := [PyObj.atom 1, PyObj.atom 2] }
        { images := [PyObj.atom 7], components := [] }).images =
      [PyObj.list [], PyObj.list [PyObj.atom 7]] ∧
    (@add_skymodels ℕ ℕ
        { images := [], components := [PyObj.atom 1, PyObj.atom 2] }
        { images := [PyObj.atom 7], components := [] }).images.length = 2 :=
  ⟨rfl, rfl, rfl⟩

/-- C9 counterexample: `create_skycomponent` with a flux of leading-axis
length 2 and a frequency list of length 3 does not fail: it returns a
component that stores the mismatched arrays exactly as passed. -/
theorem create_skycomponent_mismatch_returns :
    (create_skycomponent () [[1], [2]] [10, 20, 30] "Point" none "").flux.length = 2 ∧
    (create_skycomponent () [[1], [2]] [10, 20, 30] "Point" none "").frequency.length = 3 :=
  ⟨rfl, rfl⟩

/-- C9 amended: `create_skycomponent` performs no shape validation; even when
the flux leading-axis length differs from the frequency length it returns a
component whose fields are exactly the arguments (mismatch retained, no
coercion, no error). -/
theorem create_skycomponent_no_validation {Dir : Type} (d : Dir) (flux : List (List ℝ))
    (frequency : List ℝ) (shape : String) (param : Option (List (String × ℝ)))
    (name : String) (h : flux.length ≠ frequency.length) :
    (create_skycomponent d flux frequency shape param name).flux = flux ∧
    (create_skycomponent d flux frequency shape param name).frequency = frequency ∧
    (create_skycomponent d flux frequency shape param name).flux.length ≠
      (create_skycomponent d flux frequency shape param name).frequency.length :=
  ⟨rfl, rfl, h⟩

/-- Witness for `create_skycomponent_no_validation` at a flux of length 2 and
a frequency list of length 3. -/
theorem create_skycomponent_no_validation_witness :
    (([[1], [2]] : List (List ℝ)).length ≠ ([10, 20, 30] : List ℝ).length) ∧
    ((create_skycomponent () [[1], [2]] [10, 20, 30] "Gaussian" none "a").flux = [[1], [2]] ∧
     (create_skycomponent () [[1], [2]] [10, 20, 30] "Gaussian" none "a").frequency =
       [10, 20, 30] ∧
     (create_skycomponent () [[1], [2]] [10, 20, 30] "Gaussian" none "a").flux.length ≠
       (create_skycomponent () [[1], [2]] [10, 20, 30] "Gaussian" none "a").frequency.length) :=
  ⟨by simp, create_skycomponent_no_validation () [[1], [2]] [10, 20, 30] "Gaussian" none "a"
    (by simp)⟩

/-- C10: appending a component (resp. an image) to a SkyModel returns the very
model it mutated: the returned value and the post-call state of `sm` coincide,
the component (image) is the last element of the components (images) list, the
earlier elements keep their order, and the other list is untouched. -/
theorem add_to_skymodel_effects {Img Comp : Type} (sm : SkyModel Img Comp)
    (comp : Comp) (im : Img) :
    (add_component_to_skymodel sm comp).2 = (add_component_to_skymodel sm comp).1 ∧
    (add_component_to_skymodel sm comp).1.components =
      sm.components ++ [PyObj.atom comp] ∧
    (add_component_to_skymodel sm comp).1.images = sm.images ∧
    (add_image_to_skymodel sm im).2 = (add_image_to_skymodel sm im).1 ∧
    (add_image_to_skymodel sm im).1.images = sm.images ++ [PyObj.atom im] ∧
    (add_image_to_skymodel sm im).1.components = sm.components :=
  ⟨rfl, rfl, rfl, rfl, rfl, rfl⟩

/-- A Python runtime exception: `NameError` on reading an unbound name,
`IndexError` on indexing past the end of a list. -/
inductive PyErr where
  | nameError (missing : String)
  | indexError

/-- Reading a Python local: the bound value, or a `NameError` naming the
unbound identifier. -/
def pyLookup {α : Type} (missing : String) : Option α → Except PyErr α
  | some a => Except.ok a
  | none => Except.error (PyErr.nameError missing)

/-- The entries of the solver's parameter dictionary that `solve_skymodel`
reads (`'nmajor'`, `'threshold'`); an absent key means the default is used. -/
structure Params where
  nmajor : Option ℕ
  threshold : Option ℝ

/-- Modelled from the spec: `get_parameter(params, key, default)` of
`arl/parameters.py` (not under `src/`) returns the value stored under the key,
or the default when the key is absent. -/
def get_parameter {α : Type} (stored : Option α) (default : α) : α :=
  stored.getD default

/-- The `for i in range(nmajor)` loop of `solve_skymodel`, with the number of
remaining iterations as fuel.  Each iteration reads the locals `dirty` and
`psf` (never assigned: the `invert_visibility` line of the source is commented
out — hence the `Option Img` arguments), calls the deconvolver, accumulates
`comp += cc`, recombines the residual visibility, and breaks as soon as
`numpy.abs(dirty.data).max() < 1.1 * thresh`. -/
noncomputable def solveLoop {Vis Img : Type}
    (deconvolver : Img → Img → Params → Img × Img)
    (combine_visibility : Vis → Vis → ℝ → ℝ → Vis)
    (imagePeak : Img → ℝ) (imageAdd : PyObj Img → Img → PyObj Img)
    (vis vispred : Vis) (thresh : ℝ) (dirty psf : Option Img)
    (comp : PyObj Img) (visres : Vis) : ℕ → Except PyErr (Vis × PyObj Img)
  | 0 => Except.ok (visres, comp)
  | Nat.succ k => do
      let d ← pyLookup "dirty" dirty
      let p ← pyLookup "psf" psf
      let cc := (deconvolver d p ⟨none, none⟩).1
      let comp2 := imageAdd comp cc
      let visres2 := combine_visibility vis vispred 1 (-1)
      if imagePeak d < 1.1 * thresh then
        Except.ok (visres2, comp2)
      else
        solveLoop deconvolver combine_visibility imagePeak imageAdd
          vis vispred thresh dirty psf comp2 visres2 k

/-- Embedding of `skymodel_solvers.solve_skymodel`.  The collaborators
(`combine_visibility`, the deconvolver, image addition and peak lookup) and
the `Visibility`/`Image` types are abstract parameters.  The source line
`vispred = predict_visibility(vis, sm, params={})` is commented out, so the
local `vispred` is unbound (`none`) at its first read, exactly as in the
Python; likewise `dirty` and `psf` inside the loop. -/
noncomputable def solve_skymodel {Vis Img Comp : Type} (vis : Vis) (sm : SkyModel Img Comp)
    (deconvolver : Img → Img → Params → Img × Img)
    (combine_visibility : Vis → Vis → ℝ → ℝ → Vis)
    (imagePeak : Img → ℝ) (imageAdd : PyObj Img → Img → PyObj Img)
    (params : Params) : Except PyErr (Vis × SkyModel Img Comp) := do
  let nmajor := get_parameter params.nmajor 5
  let vispred ← pyLookup "vispred" (none : Option Vis)
  let visres := combine_visibility vis vispred 1 (-1)
  let thresh := get_parameter params.threshold 0
  let comp ← match sm.images.head? with
    | some c => Except.ok c
    | none => Except.error PyErr.indexError
  let r ← solveLoop deconvolver combine_visibility imagePeak imageAdd
    vis vispred thresh none none comp visres nmajor
  return (r.1, sm)

/-- C1 (evaluation at the failing input): with the default five major cycles
requested, `solve_skymodel` raises `NameError: name 'vispred' is not defined`
at the residual-combination line before the first cycle — the deconvolver is
never invoked, the threshold check is never evaluated, and the call does not
terminate normally. -/
theorem solve_skymodel_raises_nameError :
    @solve_skymodel ℕ ℕ ℕ 0 { images := [PyObj.atom 0], components := [] }
      (fun d _ _ => (d, d)) (fun v _ _ _ => v) (fun _ => 0)
      (fun c _ => c) ⟨some 5, none⟩ =
      Except.error (PyErr.nameError "vispred") := rfl

/-- C2 (evaluation at the failing input): even with `nmajor = 0`, the
unconditional residual-combination line still runs first, so `solve_skymodel`
raises `NameError: name 'vispred' is not defined` instead of returning the
inputs unchanged. -/
theorem solve_skymodel_nmajor_zero_raises :
    @solve_skymodel ℕ ℕ ℕ 0 { images := [PyObj.atom 0], components := [] }
      (fun d _ _ => (d, d)) (fun v _ _ _ => v) (fun _ => 0)
      (fun c _ => c) ⟨some 0, none⟩ =
      Except.error (PyErr.nameError "vispred") := rfl
